import Mathlib

/-!
# Verification of the media-group reorder bot (src/bot.py)

Shallow embedding of the aiogram bot in `src/bot.py`.  The bot buffers a
burst of media attachments sharing a `media_group_id`, debounces
finalization, stores a per-user session of file references, and — on a
valid permutation typed by the user — re-sends the files in that order.

Modelling conventions:
* Python dicts become association lists (`lookupA` / `eraseA` / `insertA`);
  `dict[k] = v` is erase-then-cons, `dict.pop(k, d)` is `eraseA`.
* Wall-clock time (`time.time()`, floats in seconds) is modelled as `Int`
  milliseconds, so the fractional constants of the source stay exact:
  `SESSION_LIFETIME = 120` s is `120000`, `WARNING_COOLDOWN = 1.5` s is
  `1500`, the debounce delay `0.7` s is `700`, the janitor age `30` s is
  `30000`.
* Outgoing calls (`message.answer`, `bot.send_media_group`) become an
  `Effect` list; the success or failure of `bot.send_media_group` is an
  explicit `sendOk : Bool` parameter (the `except`/`finally` of the source
  is modelled by branching on it).
* An aiogram `Message` keeps only the fields the script reads:
  `from_user.id`, `content_type`, the file ids of its attachment, and the
  optional `date` (absent dates are `none`).
-/

namespace Bot

/-- Python dict `d.get(k)` on an association list. -/
def lookupA {α β : Type} [DecidableEq α] (k : α) : List (α × β) → Option β
  | [] => none
  | e :: es => if e.1 = k then some e.2 else lookupA k es

/-- Python dict `d.pop(k, None)` on an association list: drop the binding of `k`. -/
def eraseA {α β : Type} [DecidableEq α] (k : α) (l : List (α × β)) : List (α × β) :=
  l.filter (fun e => e.1 != k)

/-- Python dict assignment `d[k] = v` on an association list: bind `k` to `v`, dropping any old binding. -/
def insertA {α β : Type} [DecidableEq α] (k : α) (v : β) (l : List (α × β)) : List (α × β) :=
  (k, v) :: eraseA k l

/-- Wall-clock instants and durations, in milliseconds. -/
abbrev Time := Int

/-- The source constant `WARNING_COOLDOWN = 1.5` seconds. -/
def WARNING_COOLDOWN : Time := 1500

/-- The source constant `SESSION_LIFETIME = 120` seconds. -/
def SESSION_LIFETIME : Time := 120000

/-- The fields of an incoming aiogram `Message` that the script reads.
`photo` is the list of `PhotoSize` file ids (the script takes the last),
`video`, `audio`, `document` hold the attachment's file id, and `date` is
the event creation time (`none` models a missing or falsy `date`). -/
structure Msg where
  from_user : Nat
  content_type : String
  photo : List String
  video : String
  audio : String
  document : String
  date : Option Time
deriving DecidableEq, Repr

/-- One entry of `user_sessions`: the dict built in `process_media_group`. -/
structure Session where
  files : List String
  type : String
  expected_count : Nat
  timestamp : Time
deriving DecidableEq, Repr

/-- The global mutable state of the script that the handlers touch
(`user_sessions`, `media_cache`, `warning_cache`; the `group_timers` dict
is modelled separately together with the asyncio tasks, see `AggState`). -/
structure BotState where
  user_sessions : List (Nat × Session)
  media_cache : List (String × List Msg)
  warning_cache : List (Nat × Time)
deriving DecidableEq, Repr

/-- An outgoing call to the messaging client: `message.answer text` or
`bot.send_media_group(chat_id, media)` with `media` a list of
(`InputMedia` kind, file id) pairs. -/
inductive Effect where
  | reply (chatId : Nat) (text : String)
  | sendMediaGroup (chatId : Nat) (media : List (String × String))
deriving DecidableEq, Repr

/-! ## Reply texts of the source -/

def startText : String :=
  "Назначим новую последовательность!\nОтправьте сообщение с 2–10 файлами одного типа"

def helpText : String :=
  "<b>Как пользоваться:</b>\n\n1. Отправьте медиагруппу - всё то, что вы загружаете файлом/документом (2–10 вложений <b>одинакового</b> типа: фото, видео, аудио, документы).\n2. Бот покажет текущий порядок файлов, а вы назначите новую последовательность.\n\n<b>Пример:</b> если файлов 3, введите \x273 2 1\x27.\nПосле ввода вы получите файлы в новом порядке одним сообщением, которое остаётся только переслать"

def badGroupText : String := "Отправьте 2-10 файлов одного типа"

def noSessionText : String := "Сначала отправьте медиагруппу"

def sessionExpiredText : String := "Сессия устарела, отправьте новую медиагруппу"

def parseErrText : String := "Введите только числа, разделенные пробелами"

/-- The `CountMismatch` reply of line 186. -/
def countErrText (n : Nat) : String :=
  "Введите числа от 1 до " ++ toString n ++ " через пробел"

/-- The `RangeError` reply of line 190. -/
def rangeErrText (n : Nat) : String :=
  "Числа должны быть в диапазоне 1–" ++ toString n

def sendErrText : String := "Ошибка при отправке медиагруппы. Попробуйте еще раз"

def fallbackText : String := "Некорректная команда. Используйте /help"

/-- The current 1-based order, as in line 126. -/
def orderListStr (n : Nat) : String :=
  String.intercalate " " ((List.range n).map (fun i => toString (i + 1)))

/-- The reversed example order, as in line 127. -/
def reverseListStr (n : Nat) : String :=
  String.intercalate " " ((List.range n).reverse.map (fun i => toString (i + 1)))

/-- The confirmation sent on a successful finalize (lines 129–133). -/
def confirmText (n : Nat) : String :=
  "Получено файлов: " ++ toString n ++ "\n\nТекущий порядок: " ++ orderListStr n ++
    "\nВведите новую последовательность (например: " ++ reverseListStr n ++ ")"

/-! ## Tokenizing and parsing the order input -/

/-- Helper of `tokens`: Python `str.split()` over a character list, with the
current (reversed) in-progress token as accumulator. -/
def tokensAux : List Char → List Char → List (List Char)
  | [], acc => if acc.isEmpty then [] else [acc.reverse]
  | c :: cs, acc =>
    if c.isWhitespace then
      if acc.isEmpty then tokensAux cs [] else acc.reverse :: tokensAux cs []
    else tokensAux cs (c :: acc)

/-- Python `text.split()`: the maximal whitespace-free groups of `cs`. -/
def tokens (cs : List Char) : List (List Char) := tokensAux cs []

/-- The dispatch gate of `handle_order_input`, the regular expression
`^(\d+\s*)+$` of line 161: its language is exactly the nonempty strings
whose first character is a digit and whose every character is a digit or
whitespace (each whitespace run is absorbed by a `\s*`, each digit run by
a `\d+`). -/
def matchesOrderRegex (cs : List Char) : Bool :=
  match cs with
  | [] => false
  | c :: _ => c.isDigit && cs.all (fun d => d.isDigit || d.isWhitespace)

/-- Python `int(tok)` on a token produced by `split()`: succeeds on the
digit-only tokens the dispatch regexp admits, raises `ValueError`
(modelled as `none`) otherwise. -/
def pyInt? (t : List Char) : Option Nat :=
  if !t.isEmpty && t.all Char.isDigit then
    some (t.foldl (fun n c => 10 * n + (c.toNat - 48)) 0)
  else none

/-- Lines 179–183: `[int(x) for x in message.text.split()]`, `none` when a
`ValueError` is raised. -/
def parseOrder (cs : List Char) : Option (List Nat) :=
  (tokens cs).mapM pyInt?

/-- Does some `split()` token of the text fail to be a number? -/
def hasNonNumericToken (cs : List Char) : Bool :=
  (tokens cs).any (fun t => !(t.all Char.isDigit))

/-! ## The handlers -/

/-- The content types for which `process_media_group` builds a session and
`handle_order_input` builds `InputMedia` (lines 108–115 and 195–202). -/
def supportedTypes : List String := ["photo", "video", "audio", "document"]

/-- Lines 108–117: pull the file ids out of the buffered messages according
to the shared content type (`m.photo[-1].file_id` for photos — aiogram
guarantees a photo message has a nonempty `photo` list); `none` for the
final `else: return`. -/
def extractFiles (content_type : String) (msgs : List Msg) : Option (List String) :=
  if content_type = "photo" then some (msgs.map (fun m => m.photo.getLastD ""))
  else if content_type = "video" then some (msgs.map (fun m => m.video))
  else if content_type = "audio" then some (msgs.map (fun m => m.audio))
  else if content_type = "document" then some (msgs.map (fun m => m.document))
  else none

/-- Lines 195–204: wrap the reordered file ids as `InputMedia` items;
`none` for the final `else: return`. -/
def mkMedia (content_type : String) (fs : List String) : Option (List (String × String)) :=
  if content_type = "photo" then some (fs.map (fun f => ("photo", f)))
  else if content_type = "audio" then some (fs.map (fun f => ("audio", f)))
  else if content_type = "video" then some (fs.map (fun f => ("video", f)))
  else if content_type = "document" then some (fs.map (fun f => ("document", f)))
  else none

/-- Function `process_media_group` (lines 88–135), run at wall-clock time `now`
(the `time.time()` of line 123). -/
def process_media_group (st : BotState) (group_id : String) (now : Time) :
    BotState × List Effect :=
  match lookupA group_id st.media_cache with
  | none => (st, [])
  | some messages =>
    let st1 : BotState := { st with media_cache := eraseA group_id st.media_cache }
    match messages with
    | [] => (st1, [])
    | m :: _ =>
      let user_id := m.from_user
      let content_types := (messages.map (fun x => x.content_type)).dedup
      if 1 < content_types.length ∨ ¬(2 ≤ messages.length ∧ messages.length ≤ 10) then
        (st1, [.reply user_id badGroupText])
      else
        match extractFiles m.content_type messages with
        | none => (st1, [])
        | some files =>
          let sess : Session := ⟨files, m.content_type, files.length, now⟩
          ({ st1 with user_sessions := insertA user_id sess st1.user_sessions },
           [.reply user_id (confirmText files.length)])

/-- Handler `handle_order_input` (lines 161–214).  `sendOk` tells whether the
`bot.send_media_group` call of line 207 succeeds or raises. -/
def handle_order_input (st : BotState) (user_id : Nat) (body : String) (now : Time)
    (sendOk : Bool) : BotState × List Effect :=
  match lookupA user_id st.user_sessions with
  | none => (st, [.reply user_id noSessionText])
  | some session =>
    if now - session.timestamp > SESSION_LIFETIME then
      ({ st with user_sessions := eraseA user_id st.user_sessions },
       [.reply user_id sessionExpiredText])
    else
      let files := session.files
      let content_type := session.type
      let expected_count := session.expected_count
      match parseOrder body.toList with
      | none => (st, [.reply user_id parseErrText])
      | some order_numbers =>
        if order_numbers.length ≠ expected_count ∨
            order_numbers.dedup.length ≠ expected_count then
          (st, [.reply user_id (countErrText expected_count)])
        else if List.insertionSort (· ≤ ·) order_numbers ≠
            List.range' 1 expected_count then
          (st, [.reply user_id (rangeErrText expected_count)])
        else
          let ordered_files := order_numbers.map (fun i => files.getD (i - 1) "")
          match mkMedia content_type ordered_files with
          | none => (st, [])
          | some media =>
            ({ st with user_sessions := eraseA user_id st.user_sessions },
             .sendMediaGroup user_id media ::
               (if sendOk then [] else [.reply user_id sendErrText]))

/-- Handler `cmd_start` (lines 54–71): clear the session, drop every pending group
containing a message of this user, reply with the instructions. -/
def cmd_start (st : BotState) (user_id : Nat) : BotState × List Effect :=
  let gids_to_remove :=
    (st.media_cache.filter (fun e => e.2.any (fun m => m.from_user == user_id))).map Prod.fst
  ({ st with
      user_sessions := eraseA user_id st.user_sessions,
      media_cache := gids_to_remove.foldl (fun c g => eraseA g c) st.media_cache },
   [.reply user_id startText])

/-- Handler `cmd_help` (lines 74–83). -/
def cmd_help (st : BotState) (user_id : Nat) : BotState × List Effect :=
  (st, [.reply user_id helpText])

/-- Handler `fallback_handler` (lines 219–228): throttled generic warning. -/
def fallback_handler (st : BotState) (user_id : Nat) (now : Time) :
    BotState × List Effect :=
  if now - ((lookupA user_id st.warning_cache).getD 0) < WARNING_COOLDOWN then
    (st, [])
  else
    ({ st with warning_cache := insertA user_id now st.warning_cache },
     [.reply user_id fallbackText])

/-- The aiogram dispatcher restricted to incoming text messages, in the
registration order of the source: the reset commands, the help commands,
(the `F.media_group_id` filter, which a text message never satisfies,)
the order-input regexp, and the fallback. -/
def dispatchText (st : BotState) (user_id : Nat) (body : String) (now : Time)
    (sendOk : Bool) : BotState × List Effect :=
  if body = "/start" ∨ body = "↩️ Сбросить" then cmd_start st user_id
  else if body = "/help" ∨ body = "🆘 Помощь" then cmd_help st user_id
  else if matchesOrderRegex body.toList then
    handle_order_input st user_id body now sendOk
  else fallback_handler st user_id now

/-! ## The cache janitor -/

/-- The staleness test of lines 238–239 on one `media_cache` entry:
the entry has a first message, that message has a (truthy) `date`, and it
is more than 30 seconds old. -/
def staleEntry (now : Time) (e : String × List Msg) : Bool :=
  match e.2 with
  | [] => false
  | m :: _ =>
    match m.date with
    | none => false
    | some d => now - d > 30000

/-- One sweep of the `cleanup_cache` loop body (lines 235–242): collect
the stale group ids, then pop each. -/
def cleanup_sweep (cache : List (String × List Msg)) (now : Time) :
    List (String × List Msg) :=
  let expired := (cache.filter (staleEntry now)).map Prod.fst
  expired.foldl (fun c g => eraseA g c) cache

/-! ## The debounce timers (`handle_media_group` / `delayed_process`)

The script keeps, per group id, a cancellable `asyncio` task sleeping for
0.7 s (`group_timers`).  We model each created task explicitly.  A task is
`sleeping` until it either fires at its deadline (running
`process_media_group` and then its `finally`), or is cancelled.
`Task.cancel()` only *requests* cancellation: the `CancelledError` is
delivered — and the task's `except`/`finally` block runs — at a later
event-loop cycle, which is a separate `cleanup` step of the model. -/

inductive TaskPhase where
  | sleeping
  | cancelRequested
  | done
deriving DecidableEq, Repr

/-- One `asyncio` task created by line 146 for `delayed_process`. -/
structure DebTask where
  gid : String
  fireAt : Time
  phase : TaskPhase
deriving DecidableEq, Repr

/-- The aggregation-side state: `media_cache`, the `group_timers` dict
(group id ↦ task id), and all tasks ever created.  `finalized` logs each
nonempty buffer handed to `process_media_group`. -/
structure AggState where
  cache : List (String × List Msg)
  group_timers : List (String × Nat)
  tasks : List (Nat × DebTask)
  nextId : Nat
  finalized : List (String × List Msg)
deriving DecidableEq, Repr

def AggState.empty : AggState := ⟨[], [], [], 0, []⟩

/-- Set the phase of task `tid`. -/
def setPhase (tid : Nat) (ph : TaskPhase) (tasks : List (Nat × DebTask)) :
    List (Nat × DebTask) :=
  tasks.map (fun e => if e.1 = tid then (e.1, { e.2 with phase := ph }) else e)

/-- Method `task.cancel()`: request cancellation of a still-sleeping task
(cancelling a finished or already-cancelled task changes nothing). -/
def cancelTask (tid : Nat) (tasks : List (Nat × DebTask)) : List (Nat × DebTask) :=
  tasks.map (fun e =>
    if e.1 = tid ∧ e.2.phase = .sleeping then (e.1, { e.2 with phase := .cancelRequested })
    else e)

/-- Handler `handle_media_group` (lines 138–146) for a message of group `gid`
arriving at time `t`: append to the buffer, cancel the registered timer
if any, register a fresh 0.7 s task. -/
def aggArrive (s : AggState) (gid : String) (m : Msg) (t : Time) : AggState :=
  let cache := insertA gid ((lookupA gid s.cache).getD [] ++ [m]) s.cache
  let tasks :=
    match lookupA gid s.group_timers with
    | some tid => cancelTask tid s.tasks
    | none => s.tasks
  { cache := cache,
    group_timers := insertA gid s.nextId s.group_timers,
    tasks := insertA s.nextId ⟨gid, t + 700, .sleeping⟩ tasks,
    nextId := s.nextId + 1,
    finalized := s.finalized }

/-- A cancelled task resumes on a later event-loop cycle: the
`CancelledError` is swallowed (line 153–154) and the `finally` of line 156
pops the *current* `group_timers` entry of its group id. -/
def aggCleanup (s : AggState) (tid : Nat) : AggState :=
  match lookupA tid s.tasks with
  | none => s
  | some tk =>
    if tk.phase = .cancelRequested then
      { s with
          tasks := setPhase tid .done s.tasks,
          group_timers := eraseA tk.gid s.group_timers }
    else s

/-- A sleeping task reaches its deadline: `delayed_process` runs
`process_media_group` (whose first action pops the buffer; an empty pop is
a no-op) and then its `finally` pops the `group_timers` entry. -/
def aggFire (s : AggState) (tid : Nat) : AggState :=
  match lookupA tid s.tasks with
  | none => s
  | some tk =>
    if tk.phase = .sleeping then
      let msgs := (lookupA tk.gid s.cache).getD []
      { s with
          cache := eraseA tk.gid s.cache,
          finalized := s.finalized ++ (if msgs.isEmpty then [] else [(tk.gid, msgs)]),
          tasks := setPhase tid .done s.tasks,
          group_timers := eraseA tk.gid s.group_timers }
    else s

/-- One scheduler event of the aggregation model. -/
inductive AggEv where
  | arrive (gid : String) (m : Msg) (t : Time)
  | cleanup (tid : Nat)
  | fire (tid : Nat)
deriving DecidableEq, Repr

def aggStep (s : AggState) : AggEv → AggState
  | .arrive gid m t => aggArrive s gid m t
  | .cleanup tid => aggCleanup s tid
  | .fire tid => aggFire s tid

def aggRun (s : AggState) (evs : List AggEv) : AggState := evs.foldl aggStep s

/-- The live (armed, neither fired nor cancelled) debounce timers of a
group id. -/
def liveTimers (s : AggState) (gid : String) : Nat :=
  (s.tasks.filter (fun e => e.2.gid == gid && e.2.phase == .sleeping)).length

/-! ## Helper lemmas -/

theorem foldl_eraseA_eq_filter {α β : Type} [DecidableEq α] (ks : List α)
    (l : List (α × β)) :
    ks.foldl (fun c g => eraseA g c) l = l.filter (fun e => !(ks.contains e.1)) := by
  induction ks generalizing l with
  | nil => simp
  | cons k ks ih =>
    simp only [List.foldl_cons]
    rw [ih, eraseA, List.filter_filter]
    apply List.filter_congr
    intro e _
    simp only [List.contains_cons, bne]
    cases h : e.1 == k <;> cases h2 : ks.contains e.1 <;> simp [h, h2]

/-! ## C4: lazy session TTL -/

/-- C4.  A session queried through `handle_order_input` strictly more than
`SESSION_LIFETIME` (120 s) after its creation is evicted, the user is told
the session expired, and nothing else happens (in particular no send). -/
theorem C4_session_ttl (st : BotState) (uid : Nat) (sess : Session) (body : String)
    (now : Time) (sendOk : Bool)
    (hs : lookupA uid st.user_sessions = some sess)
    (hexp : now - sess.timestamp > SESSION_LIFETIME) :
    handle_order_input st uid body now sendOk =
      ({ st with user_sessions := eraseA uid st.user_sessions },
       [.reply uid sessionExpiredText]) := by
  simp only [handle_order_input, hs]
  rw [if_pos hexp]

def c4sess : Session := ⟨["a", "b", "c"], "photo", 3, 0⟩

def c4st : BotState := ⟨[(7, c4sess)], [], []⟩

/-- Witness for C4: a session created at `t = 0` and queried at
`t + 121` s. -/
theorem C4_session_ttl_witness :
    lookupA 7 c4st.user_sessions = some c4sess
    ∧ (121000 : Time) - c4sess.timestamp > SESSION_LIFETIME
    ∧ handle_order_input c4st 7 "1 2 3" 121000 true =
        ({ c4st with user_sessions := eraseA 7 c4st.user_sessions },
         [.reply 7 sessionExpiredText]) :=
  ⟨by decide, by decide,
    C4_session_ttl c4st 7 c4sess "1 2 3" 121000 true (by decide) (by decide)⟩

/-! ## C10: order input with no active session -/

/-- C10.  An order input (text matched by the dispatch regexp) arriving
while the user has no session only produces the "send a media group first"
prompt and leaves the whole state untouched. -/
theorem C10_no_session_prompt (st : BotState) (uid : Nat) (body : String)
    (now : Time) (sendOk : Bool)
    (hre : matchesOrderRegex body.toList = true)
    (hs : lookupA uid st.user_sessions = none) :
    dispatchText st uid body now sendOk = (st, [.reply uid noSessionText]) := by
  have hstart : ¬(body = "/start" ∨ body = "↩️ Сбросить") := by
    rintro (h | h) <;> subst h <;> exact absurd hre (by decide)
  have hhelp : ¬(body = "/help" ∨ body = "🆘 Помощь") := by
    rintro (h | h) <;> subst h <;> exact absurd hre (by decide)
  rw [dispatchText, if_neg hstart, if_neg hhelp, if_pos hre]
  simp only [handle_order_input, hs]

def c10st : BotState := ⟨[], [("g", [])], [(3, 1)]⟩

/-- Witness for C10 at input "1 2" with no session for user 7. -/
theorem C10_no_session_prompt_witness :
    matchesOrderRegex "1 2".toList = true
    ∧ lookupA 7 c10st.user_sessions = none
    ∧ dispatchText c10st 7 "1 2" 5 true = (c10st, [.reply 7 noSessionText]) :=
  ⟨by decide, by decide, C10_no_session_prompt c10st 7 "1 2" 5 true (by decide) (by decide)⟩

/-! ## C8, C9: the cache janitor -/

theorem staleEntry_iff (now : Time) (e : String × List Msg) :
    staleEntry now e = true ↔
      ∃ m rest d, e.2 = m :: rest ∧ m.date = some d ∧ now - d > 30000 := by
  obtain ⟨g, msgs⟩ := e
  cases msgs with
  | nil => simp [staleEntry]
  | cons m rest =>
    cases hd : m.date with
    | none => simp [staleEntry, hd]
    | some d => simp [staleEntry, hd]

/-- With distinct group ids (a dict invariant), the two-phase
collect-then-pop sweep of `cleanup_cache` is a filter. -/
theorem cleanup_sweep_eq_filter (cache : List (String × List Msg)) (now : Time)
    (hnd : (cache.map Prod.fst).Nodup) :
    cleanup_sweep cache now = cache.filter (fun e => !(staleEntry now e)) := by
  rw [cleanup_sweep, foldl_eraseA_eq_filter]
  apply List.filter_congr
  intro e he
  have key : ((cache.filter (staleEntry now)).map Prod.fst).contains e.1 = staleEntry now e := by
    by_cases hst : staleEntry now e = true
    · rw [hst, List.elem_iff]
      exact List.mem_map_of_mem _ (List.mem_filter.mpr ⟨he, hst⟩)
    · rw [Bool.not_eq_true] at hst
      rw [hst, ← Bool.not_eq_true, List.elem_iff]
      intro hmem
      obtain ⟨e', he', hee⟩ := List.mem_map.mp hmem
      have he'c := (List.mem_filter.mp he').1
      have he's := (List.mem_filter.mp he').2
      have : e' = e := List.inj_on_of_nodup_map hnd he'c he hee
      rw [this, hst] at he's
      exact Bool.false_ne_true he's
  rw [key]

/-- C8.  One janitor sweep removes exactly the pending groups whose first
buffered message carries a creation time strictly more than 30 s old;
a group whose first message has no creation time is never evicted; the
sweep does nothing else (the surviving entries are the same, in order). -/
theorem C8_janitor_sweep (cache : List (String × List Msg)) (now : Time)
    (hnd : (cache.map Prod.fst).Nodup) :
    cleanup_sweep cache now = cache.filter (fun e => !(staleEntry now e))
    ∧ (∀ e ∈ cache, e ∈ cleanup_sweep cache now ↔
        ¬ ∃ m rest d, e.2 = m :: rest ∧ m.date = some d ∧ now - d > 30000)
    ∧ (cleanup_sweep cache now).Sublist cache := by
  have hf := cleanup_sweep_eq_filter cache now hnd
  refine ⟨hf, ?_, hf ▸ List.filter_sublist _⟩
  intro e he
  rw [hf, List.mem_filter, ← staleEntry_iff now e]
  cases h : staleEntry now e <;> simp [h, he]

def c8stale : Msg := ⟨7, "photo", ["x"], "", "", "", some 0⟩

def c8nodate : Msg := ⟨7, "photo", ["y"], "", "", "", none⟩

def c8fresh : Msg := ⟨7, "photo", ["z"], "", "", "", some 50000⟩

def c8cache : List (String × List Msg) :=
  [("g", [c8stale]), ("h", [c8nodate]), ("i", [c8fresh])]

/-- Witness for C8 at `now = 40000` ms: the 40 s old entry goes, the
dateless and the 10 s old entries stay. -/
theorem C8_janitor_sweep_witness :
    (c8cache.map Prod.fst).Nodup
    ∧ (cleanup_sweep c8cache 40000 = c8cache.filter (fun e => !(staleEntry 40000 e))
      ∧ (∀ e ∈ c8cache, e ∈ cleanup_sweep c8cache 40000 ↔
          ¬ ∃ m rest d, e.2 = m :: rest ∧ m.date = some d ∧ (40000 : Time) - d > 30000)
      ∧ (cleanup_sweep c8cache 40000).Sublist c8cache) :=
  ⟨by decide, C8_janitor_sweep c8cache 40000 (by decide)⟩

/-- C9.  The janitor sweep is idempotent: a second sweep at the same
instant, with no interleaving events, changes nothing. -/
theorem C9_janitor_idempotent (cache : List (String × List Msg)) (now : Time)
    (hnd : (cache.map Prod.fst).Nodup) :
    cleanup_sweep (cleanup_sweep cache now) now = cleanup_sweep cache now := by
  have hf := cleanup_sweep_eq_filter cache now hnd
  have hnd2 : ((cleanup_sweep cache now).map Prod.fst).Nodup := by
    rw [hf]
    exact hnd.sublist ((List.filter_sublist _).map _)
  rw [cleanup_sweep_eq_filter _ now hnd2, hf, List.filter_filter]
  apply List.filter_congr
  intro e _
  cases h : staleEntry now e <;> simp [h]

/-- Witness for C9 on the same three-entry cache. -/
theorem C9_janitor_idempotent_witness :
    (c8cache.map Prod.fst).Nodup
    ∧ cleanup_sweep (cleanup_sweep c8cache 40000) 40000 = cleanup_sweep c8cache 40000 :=
  ⟨by decide, C9_janitor_idempotent c8cache 40000 (by decide)⟩

/-! ## C1, C3, C6: the order-input handler -/

theorem mkMedia_supported (ct : String) (hct : ct ∈ supportedTypes) (fs : List String) :
    mkMedia ct fs = some (fs.map (fun f => (ct, f))) := by
  simp only [supportedTypes, List.mem_cons, List.mem_singleton, List.not_mem_nil,
    or_false] at hct
  rcases hct with h | h | h | h <;> subst h <;> rfl

/-- Evaluation of `handle_order_input` on the success path: session
present, not expired, input parses, both validator checks pass, session
type one of the four supported ones. -/
theorem handle_order_success (st : BotState) (uid : Nat) (sess : Session) (body : String)
    (now : Time) (sendOk : Bool) (P : List Nat)
    (hs : lookupA uid st.user_sessions = some sess)
    (hns : ¬ now - sess.timestamp > SESSION_LIFETIME)
    (hp : parseOrder body.toList = some P)
    (hlen : P.length = sess.expected_count)
    (hdedup : P.dedup.length = sess.expected_count)
    (hsort : List.insertionSort (· ≤ ·) P = List.range' 1 sess.expected_count)
    (hty : sess.type ∈ supportedTypes) :
    handle_order_input st uid body now sendOk =
      ({ st with user_sessions := eraseA uid st.user_sessions },
       .sendMediaGroup uid (P.map (fun i => (sess.type, sess.files.getD (i - 1) ""))) ::
         (if sendOk then [] else [.reply uid sendErrText])) := by
  simp only [handle_order_input, hs]
  rw [if_neg hns]
  simp only [hp]
  rw [if_neg (by simp [hlen, hdedup]), if_neg (by simp [hsort]),
    mkMedia_supported sess.type hty]
  simp [List.map_map, Function.comp]

/-- The list `[1..n]` is sorted. -/
theorem sorted_le_range' (s n : Nat) : List.Sorted (· ≤ ·) (List.range' s n) :=
  (List.pairwise_lt_range' s n 1 (by omega)).imp (fun h => Nat.le_of_lt h)

/-- C1.  With an active (unexpired) session holding `files` of length `N`
and an input parsing to a permutation `P` of `[1..N]`, the handler asks
for a grouped-media send whose items are exactly the session files picked
at positions `P[k] - 1` in order, each tagged with the session's content
type, and the session is cleared (the indices `P[k] - 1` are all in
range, so the `getD` defaults are never used). -/
theorem C1_reorder_success (st : BotState) (uid : Nat) (sess : Session) (body : String)
    (now : Time) (sendOk : Bool) (P : List Nat)
    (hs : lookupA uid st.user_sessions = some sess)
    (hns : ¬ now - sess.timestamp > SESSION_LIFETIME)
    (hp : parseOrder body.toList = some P)
    (hN : sess.expected_count = sess.files.length)
    (hperm : P.Perm (List.range' 1 sess.expected_count))
    (hty : sess.type ∈ supportedTypes) :
    (∀ i ∈ P, 1 ≤ i ∧ i - 1 < sess.files.length)
    ∧ handle_order_input st uid body now sendOk =
        ({ st with user_sessions := eraseA uid st.user_sessions },
         .sendMediaGroup uid (P.map (fun i => (sess.type, sess.files.getD (i - 1) ""))) ::
           (if sendOk then [] else [.reply uid sendErrText])) := by
  have hlen : P.length = sess.expected_count :=
    hperm.length_eq.trans (List.length_range' _ _ _)
  have hnodup : P.Nodup := hperm.nodup_iff.mpr (List.nodup_range' _ _)
  have hdedup : P.dedup.length = sess.expected_count := by
    rw [List.dedup_eq_self.mpr hnodup, hlen]
  have hsort : List.insertionSort (· ≤ ·) P = List.range' 1 sess.expected_count :=
    List.eq_of_perm_of_sorted ((List.perm_insertionSort _ P).trans hperm)
      (List.sorted_insertionSort _ P) (sorted_le_range' _ _)
  refine ⟨?_, handle_order_success st uid sess body now sendOk P
    hs hns hp hlen hdedup hsort hty⟩
  intro i hi
  have := List.mem_range'_1.mp (hperm.mem_iff.mp hi)
  omega

def c1sess : Session := ⟨["a", "b", "c"], "photo", 3, 0⟩

def c1st : BotState := ⟨[(7, c1sess)], [], []⟩

/-- Witness for C1: user 7 replies "3 1 2" to a 3-photo session; the bot
requests the grouped send `[c, a, b]` and clears the session. -/
theorem C1_reorder_success_witness :
    ([3, 1, 2].Perm (List.range' 1 c1sess.expected_count))
    ∧ ((∀ i ∈ [3, 1, 2], 1 ≤ i ∧ i - 1 < c1sess.files.length)
      ∧ handle_order_input c1st 7 "3 1 2" 5 true =
          ({ c1st with user_sessions := eraseA 7 c1st.user_sessions },
           .sendMediaGroup 7 ([3, 1, 2].map
              (fun i => (c1sess.type, c1sess.files.getD (i - 1) ""))) ::
             (if true then [] else [.reply 7 sendErrText]))) :=
  ⟨by decide, C1_reorder_success c1st 7 c1sess "3 1 2" 5 true [3, 1, 2]
    (by decide) (by decide) (by decide) (by decide) (by decide) (by decide)⟩

/-- C3.  Whenever the send step is reached (session present and valid
input), the session is cleared no matter whether `bot.send_media_group`
succeeds or raises, and on a raise the handler swallows the exception and
sends the generic retry reply after the send attempt. -/
theorem C3_send_failure_clears (st : BotState) (uid : Nat) (sess : Session) (body : String)
    (now : Time) (sendOk : Bool) (P : List Nat)
    (hs : lookupA uid st.user_sessions = some sess)
    (hns : ¬ now - sess.timestamp > SESSION_LIFETIME)
    (hp : parseOrder body.toList = some P)
    (hlen : P.length = sess.expected_count)
    (hdedup : P.dedup.length = sess.expected_count)
    (hsort : List.insertionSort (· ≤ ·) P = List.range' 1 sess.expected_count)
    (hty : sess.type ∈ supportedTypes) :
    (handle_order_input st uid body now sendOk).1.user_sessions =
        eraseA uid st.user_sessions
    ∧ (sendOk = false →
        (handle_order_input st uid body now sendOk).2 =
          [.sendMediaGroup uid (P.map (fun i => (sess.type, sess.files.getD (i - 1) ""))),
           .reply uid sendErrText]) := by
  rw [handle_order_success st uid sess body now sendOk P hs hns hp hlen hdedup hsort hty]
  constructor
  · rfl
  · rintro rfl
    rfl

def c3sess : Session := ⟨["a", "b"], "video", 2, 0⟩

def c3st : BotState := ⟨[(7, c3sess)], [], []⟩

/-- Witness for C3: the send of the reordered 2-video group raises; the
user gets the retry reply and the session is gone. -/
theorem C3_send_failure_clears_witness :
    List.insertionSort (· ≤ ·) [2, 1] = List.range' 1 c3sess.expected_count
    ∧ ((handle_order_input c3st 7 "2 1" 5 false).1.user_sessions =
        eraseA 7 c3st.user_sessions
      ∧ (false = false →
          (handle_order_input c3st 7 "2 1" 5 false).2 =
            [.sendMediaGroup 7 ([2, 1].map
                (fun i => (c3sess.type, c3sess.files.getD (i - 1) ""))),
             .reply 7 sendErrText])) :=
  ⟨by decide, C3_send_failure_clears c3st 7 c3sess "2 1" 5 false [2, 1]
    (by decide) (by decide) (by decide) (by decide) (by decide) (by decide) (by decide)⟩

/-- C6 (amended).  With an active unexpired session of expected count `N`,
an input whose sorted parsed integers differ from `[1..N]` is rejected
with the session retained and nothing sent; the reply is the range-error
one when the token count and distinct count equal `N`, and the
count-mismatch one otherwise (that check runs first in the source). -/
theorem C6_invalid_order_rejected (st : BotState) (uid : Nat) (sess : Session)
    (body : String) (now : Time) (sendOk : Bool) (P : List Nat)
    (hs : lookupA uid st.user_sessions = some sess)
    (hns : ¬ now - sess.timestamp > SESSION_LIFETIME)
    (hp : parseOrder body.toList = some P)
    (hsort : List.insertionSort (· ≤ ·) P ≠ List.range' 1 sess.expected_count) :
    handle_order_input st uid body now sendOk =
      (st, [.reply uid
        (if P.length = sess.expected_count ∧ P.dedup.length = sess.expected_count then
          rangeErrText sess.expected_count
        else countErrText sess.expected_count)]) := by
  simp only [handle_order_input, hs]
  rw [if_neg hns]
  simp only [hp]
  by_cases hcnt : P.length = sess.expected_count ∧ P.dedup.length = sess.expected_count
  · rw [if_neg (by simp [hcnt.1, hcnt.2]), if_pos hsort, if_pos hcnt]
  · rw [if_pos (by tauto), if_neg hcnt]

def c6sess : Session := ⟨["a", "b"], "photo", 2, 0⟩

def c6st : BotState := ⟨[(7, c6sess)], [], []⟩

/-- Counterexample to C6 as stated: for the input "1 1" against a session
with `N = 2`, the sorted parsed integers `[1, 1]` differ from `[1, 2]`,
yet the reply is the count-mismatch one, not the range-error one. -/
theorem C6_counterexample :
    List.insertionSort (· ≤ ·) [1, 1] ≠ List.range' 1 2
    ∧ parseOrder "1 1".toList = some [1, 1]
    ∧ handle_order_input c6st 7 "1 1" 5 true = (c6st, [.reply 7 (countErrText 2)])
    ∧ countErrText 2 ≠ rangeErrText 2 := by
  refine ⟨by decide, by decide, by decide, by decide⟩

/-- Witness for the amended C6 on both branches is given at the
count-mismatch side; the hypotheses are discharged concretely. -/
theorem C6_invalid_order_rejected_witness :
    List.insertionSort (· ≤ ·) [1, 1] ≠ List.range' 1 c6sess.expected_count
    ∧ handle_order_input c6st 7 "1 1" 5 true =
        (c6st, [.reply 7
          (if [1, 1].length = c6sess.expected_count ∧
              ([1, 1] : List Nat).dedup.length = c6sess.expected_count then
            rangeErrText c6sess.expected_count
          else countErrText c6sess.expected_count)]) :=
  ⟨by decide, C6_invalid_order_rejected c6st 7 c6sess "1 1" 5 true [1, 1]
    (by decide) (by decide) (by decide) (by decide)⟩

/-! ## C5: non-numeric input -/

/-- Every character of every `split()` token comes from the split text or
from the (whitespace-free) accumulator, and is itself not whitespace. -/
theorem tokensAux_chars (cs : List Char) : ∀ (acc t : List Char), ∀ c : Char,
    (∀ a ∈ acc, a.isWhitespace = false) → t ∈ tokensAux cs acc → c ∈ t →
    (c ∈ cs ∨ c ∈ acc) ∧ c.isWhitespace = false := by
  induction cs with
  | nil =>
    intro acc t c hacc ht hc
    by_cases ha : acc.isEmpty
    · simp [tokensAux, ha] at ht
    · rw [Bool.not_eq_true] at ha
      simp only [tokensAux, ha, Bool.false_eq_true, if_false, List.mem_singleton] at ht
      subst ht
      rw [List.mem_reverse] at hc
      exact ⟨Or.inr hc, hacc c hc⟩
  | cons d cs ih =>
    intro acc t c hacc ht hc
    by_cases hd : d.isWhitespace
    · by_cases ha : acc.isEmpty
      · simp only [tokensAux, hd, if_true, ha] at ht
        obtain ⟨h1, h2⟩ := ih [] t c (by simp) ht hc
        rcases h1 with h1 | h1
        · exact ⟨Or.inl (List.mem_cons_of_mem d h1), h2⟩
        · simp at h1
      · rw [Bool.not_eq_true] at ha
        simp only [tokensAux, hd, if_true, ha, Bool.false_eq_true, if_false,
          List.mem_cons] at ht
        rcases ht with rfl | ht
        · rw [List.mem_reverse] at hc
          exact ⟨Or.inr hc, hacc c hc⟩
        · obtain ⟨h1, h2⟩ := ih [] t c (by simp) ht hc
          rcases h1 with h1 | h1
          · exact ⟨Or.inl (List.mem_cons_of_mem d h1), h2⟩
          · simp at h1
    · rw [Bool.not_eq_true] at hd
      simp only [tokensAux, hd, Bool.false_eq_true, if_false] at ht
      have hacc' : ∀ a ∈ d :: acc, a.isWhitespace = false := by
        intro a ha
        rcases List.mem_cons.mp ha with rfl | ha
        · exact hd
        · exact hacc a ha
      obtain ⟨h1, h2⟩ := ih (d :: acc) t c hacc' ht hc
      rcases h1 with h1 | h1
      · exact ⟨Or.inl (List.mem_cons_of_mem d h1), h2⟩
      · rcases List.mem_cons.mp h1 with rfl | h1
        · exact ⟨Or.inl (List.mem_cons_self _ _), h2⟩
        · exact ⟨Or.inr h1, h2⟩

/-- A text with a non-numeric `split()` token cannot match the dispatch
regexp `^(\d+\s*)+$`: the offending character is neither a digit nor
whitespace. -/
theorem not_regex_of_nonNumeric (cs : List Char)
    (h : hasNonNumericToken cs = true) : matchesOrderRegex cs = false := by
  rw [hasNonNumericToken, List.any_eq_true] at h
  obtain ⟨t, ht, hbad⟩ := h
  rw [Bool.not_eq_true', List.all_eq_false] at hbad
  obtain ⟨c, hct, hcd⟩ := hbad
  obtain ⟨hmem, hws⟩ := tokensAux_chars cs [] t c (by simp) ht hct
  rcases hmem with hmem | hmem
  · cases cs with
    | nil => rfl
    | cons c0 cs0 =>
      rw [matchesOrderRegex]
      have : (c0 :: cs0).all (fun d => d.isDigit || d.isWhitespace) = false := by
        rw [List.all_eq_false]
        exact ⟨c, hmem, by simp [Bool.not_eq_true] at hcd; simp [hcd, hws]⟩
      rw [this, Bool.and_false]
  · simp at hmem

/-- C5 (amended).  Any text with a non-numeric token, other than the four
reset/help commands, is routed to the throttled fallback handler: the
session and the media cache are untouched, no media send occurs, and a
generic invalid-command reply is sent exactly when the per-user 1.5 s
warning cooldown has elapsed. -/
theorem C5_nonnumeric_fallback (st : BotState) (uid : Nat) (body : String)
    (now : Time) (sendOk : Bool)
    (hnn : hasNonNumericToken body.toList = true)
    (hcmd : body ∉ ["/start", "↩️ Сбросить", "/help", "🆘 Помощь"]) :
    (dispatchText st uid body now sendOk).1.user_sessions = st.user_sessions
    ∧ (dispatchText st uid body now sendOk).1.media_cache = st.media_cache
    ∧ (dispatchText st uid body now sendOk).2 =
        (if now - ((lookupA uid st.warning_cache).getD 0) < WARNING_COOLDOWN then []
         else [.reply uid fallbackText]) := by
  simp only [List.mem_cons, List.mem_singleton, List.not_mem_nil, or_false,
    not_or] at hcmd
  obtain ⟨h1, h2, h3, h4⟩ := hcmd
  rw [dispatchText, if_neg (by tauto), if_neg (by tauto),
    if_neg (by rw [Bool.not_eq_true]; exact not_regex_of_nonNumeric _ hnn),
    fallback_handler]
  by_cases hcool : now - ((lookupA uid st.warning_cache).getD 0) < WARNING_COOLDOWN
  · rw [if_pos hcool, if_pos hcool]
    exact ⟨rfl, rfl, rfl⟩
  · rw [if_neg hcool, if_neg hcool]
    exact ⟨rfl, rfl, rfl⟩

def c5sess : Session := ⟨["a", "b"], "photo", 2, 0⟩

def c5st : BotState := ⟨[(7, c5sess)], [], []⟩

/-- Counterexample to C5 as stated: "/start" contains a non-numeric token,
yet dispatching it does **not** leave the session untouched — the reset
command clears it. -/
theorem C5_counterexample :
    hasNonNumericToken "/start".toList = true
    ∧ lookupA 7 c5st.user_sessions = some c5sess
    ∧ lookupA 7 (dispatchText c5st 7 "/start" 5 true).1.user_sessions = none := by
  refine ⟨by decide, by decide, by decide⟩

def c5st2 : BotState := ⟨[(7, c5sess)], [], [(7, 100)]⟩

/-- Witness for the amended C5: the garbage input "abc" from user 7 at a
time within the cooldown of the last warning draws no reply and changes
no session. -/
theorem C5_nonnumeric_fallback_witness :
    hasNonNumericToken "abc".toList = true
    ∧ ((dispatchText c5st2 7 "abc" 1000 true).1.user_sessions = c5st2.user_sessions
      ∧ (dispatchText c5st2 7 "abc" 1000 true).1.media_cache = c5st2.media_cache
      ∧ (dispatchText c5st2 7 "abc" 1000 true).2 =
          (if (1000 : Time) - ((lookupA 7 c5st2.warning_cache).getD 0) < WARNING_COOLDOWN
           then []
           else [.reply 7 fallbackText])) :=
  ⟨by decide, C5_nonnumeric_fallback c5st2 7 "abc" 1000 true (by decide) (by decide)⟩

/-! ## C2: finalizing a pending group -/

/-- The buffered events share one content type (line 98, first disjunct
negated). -/
abbrev uniformType (messages : List Msg) : Prop :=
  ¬ 1 < ((messages.map (fun x => x.content_type)).dedup).length

/-- The buffered event count is within `[2, 10]` (line 98, second
disjunct negated). -/
abbrev countOkP (messages : List Msg) : Prop :=
  2 ≤ messages.length ∧ messages.length ≤ 10

theorem extractFiles_supported (ct : String) (hct : ct ∈ supportedTypes)
    (msgs : List Msg) :
    extractFiles ct msgs = some ((extractFiles ct msgs).getD []) := by
  simp only [supportedTypes, List.mem_cons, List.mem_singleton, List.not_mem_nil,
    or_false] at hct
  rcases hct with h | h | h | h <;> subst h <;> rfl

theorem extractFiles_unsupported (ct : String) (hct : ct ∉ supportedTypes)
    (msgs : List Msg) : extractFiles ct msgs = none := by
  simp only [supportedTypes, List.mem_cons, List.mem_singleton, List.not_mem_nil,
    or_false, not_or] at hct
  obtain ⟨h1, h2, h3, h4⟩ := hct
  rw [extractFiles, if_neg h1, if_neg h3, if_neg h2, if_neg h4]

/-- C2 (amended).  Finalizing a nonempty pending group always discards the
buffer; it creates a session exactly when the buffered events share a
single **supported** content type (photo, video, audio, document) and the
count is within `[2, 10]`.  Mixed types or a bad count draw the
user-facing error and leave the sessions untouched; a uniform but
unsupported type is discarded silently; on success the new session
(files, shared type, count, `now`) overwrites any prior session of the
owner and the confirmation lists the current order and the reversed
example. -/
theorem C2_finalize (st : BotState) (gid : String) (now : Time) (m : Msg)
    (rest : List Msg)
    (hm : lookupA gid st.media_cache = some (m :: rest)) :
    (process_media_group st gid now).1.media_cache = eraseA gid st.media_cache
    ∧ (¬(uniformType (m :: rest) ∧ countOkP (m :: rest)) →
        process_media_group st gid now =
          ({ st with media_cache := eraseA gid st.media_cache },
           [.reply m.from_user badGroupText]))
    ∧ (uniformType (m :: rest) → countOkP (m :: rest) →
        m.content_type ∉ supportedTypes →
        process_media_group st gid now =
          ({ st with media_cache := eraseA gid st.media_cache }, []))
    ∧ (uniformType (m :: rest) → countOkP (m :: rest) →
        m.content_type ∈ supportedTypes →
        process_media_group st gid now =
          ({ st with
              media_cache := eraseA gid st.media_cache,
              user_sessions := insertA m.from_user
                ⟨(extractFiles m.content_type (m :: rest)).getD [],
                 m.content_type,
                 ((extractFiles m.content_type (m :: rest)).getD []).length,
                 now⟩ st.user_sessions },
           [.reply m.from_user
              (confirmText ((extractFiles m.content_type (m :: rest)).getD []).length)])) := by
  have hiff : (1 < ((List.map (fun x => x.content_type) (m :: rest)).dedup).length ∨
      ¬(2 ≤ (m :: rest).length ∧ (m :: rest).length ≤ 10)) ↔
      ¬(uniformType (m :: rest) ∧ countOkP (m :: rest)) := by
    unfold uniformType countOkP
    tauto
  simp only [process_media_group, hm]
  by_cases hu : uniformType (m :: rest) ∧ countOkP (m :: rest)
  · rw [if_neg (by rw [hiff]; exact not_not_intro hu)]
    by_cases hsup : m.content_type ∈ supportedTypes
    · rw [extractFiles_supported _ hsup]
      exact ⟨rfl, fun h => absurd hu h, fun _ _ h => absurd hsup h, fun _ _ _ => rfl⟩
    · rw [extractFiles_unsupported _ hsup]
      exact ⟨rfl, fun h => absurd hu h, fun _ _ _ => rfl, fun _ _ h => absurd h hsup⟩
  · rw [if_pos (hiff.mpr hu)]
    exact ⟨rfl, fun _ => rfl, fun h1 h2 => absurd ⟨h1, h2⟩ hu,
      fun h1 h2 => absurd ⟨h1, h2⟩ hu⟩

def c2msg : Msg := ⟨7, "sticker", [], "", "", "s1", none⟩

def c2st : BotState := ⟨[], [("g", [c2msg, c2msg])], []⟩

/-- Counterexample to C2 as stated: a pending group of two messages
sharing the single content type "sticker" (count 2 within `[2, 10]`)
produces **no** session — and no error either; the buffer is silently
dropped. -/
theorem C2_counterexample :
    (([c2msg, c2msg].map (fun x => x.content_type)).dedup).length = 1
    ∧ 2 ≤ ([c2msg, c2msg] : List Msg).length ∧ ([c2msg, c2msg] : List Msg).length ≤ 10
    ∧ (process_media_group c2st "g" 100).1.user_sessions = []
    ∧ (process_media_group c2st "g" 100).2 = [] := by
  refine ⟨by decide, by decide, by decide, by decide⟩

def c2pm : Msg := ⟨7, "photo", ["p1", "p2"], "", "", "", some 0⟩

def c2pm2 : Msg := ⟨7, "photo", ["q1"], "", "", "", some 100⟩

def c2pst : BotState := ⟨[(7, ⟨["old"], "photo", 1, 0⟩)], [("g", [c2pm, c2pm2])], []⟩

/-- Witness for the amended C2: finalizing a two-photo group replaces the
prior session of user 7 and sends the confirmation. -/
theorem C2_finalize_witness :
    lookupA "g" c2pst.media_cache = some [c2pm, c2pm2]
    ∧ ((process_media_group c2pst "g" 100).1.media_cache = eraseA "g" c2pst.media_cache
      ∧ (¬(uniformType [c2pm, c2pm2] ∧ countOkP [c2pm, c2pm2]) →
          process_media_group c2pst "g" 100 =
            ({ c2pst with media_cache := eraseA "g" c2pst.media_cache },
             [.reply c2pm.from_user badGroupText]))
      ∧ (uniformType [c2pm, c2pm2] → countOkP [c2pm, c2pm2] →
          c2pm.content_type ∉ supportedTypes →
          process_media_group c2pst "g" 100 =
            ({ c2pst with media_cache := eraseA "g" c2pst.media_cache }, []))
      ∧ (uniformType [c2pm, c2pm2] → countOkP [c2pm, c2pm2] →
          c2pm.content_type ∈ supportedTypes →
          process_media_group c2pst "g" 100 =
            ({ c2pst with
                media_cache := eraseA "g" c2pst.media_cache,
                user_sessions := insertA c2pm.from_user
                  ⟨(extractFiles c2pm.content_type [c2pm, c2pm2]).getD [],
                   c2pm.content_type,
                   ((extractFiles c2pm.content_type [c2pm, c2pm2]).getD []).length,
                   100⟩ c2pst.user_sessions },
             [.reply c2pm.from_user
                (confirmText ((extractFiles c2pm.content_type [c2pm, c2pm2]).getD []).length)]))) :=
  ⟨rfl, C2_finalize c2pst "g" 100 c2pm [c2pm2] rfl⟩

/-! ## C7: the debounce-timer invariant -/

def c7msg : Msg := ⟨7, "photo", ["A"], "", "", "", some 0⟩

/-- The asyncio schedule refuting C7: attachments for group "g" arrive at
0 ms, 300 ms and 600 ms.  The second arrival cancels task 0 and registers
task 1; before the third arrival the event loop resumes the cancelled
task 0, whose `finally: group_timers.pop(group_id, None)` removes task
1's registry entry; the third arrival therefore finds no timer to cancel
and registers task 2 while task 1 is still sleeping. -/
def c7trace : List AggEv :=
  [.arrive "g" c7msg 0, .arrive "g" c7msg 300, .cleanup 0, .arrive "g" c7msg 600]

/-- C7 fails on the code: after the trace above, two debounce timers for
group "g" are live at once (tasks 1 and 2, due at 1000 ms and 1300 ms),
so two finalizes are pending for a single group id. -/
theorem C7_two_live_timers :
    liveTimers (aggRun AggState.empty c7trace) "g" = 2
    ∧ lookupA 1 (aggRun AggState.empty c7trace).tasks =
        some ⟨"g", 1000, .sleeping⟩
    ∧ lookupA 2 (aggRun AggState.empty c7trace).tasks =
        some ⟨"g", 1300, .sleeping⟩ := by
  refine ⟨by decide, by decide, by decide⟩

end Bot
